import Mathlib

/-!
Verification of the rental-return workflow of the NodeJS-Demo (vidly) backend.

The embedding models, from the source:
  * `models/rental.js` — the rental schema (customer/movie snapshots, `dateOut`,
    `dateReturned`, `rentalFee`), the static `Rental.lookup` and the instance
    method `rental.return()`;
  * `routes/returns.js` — the `POST /api/returns` pipeline:
    `[auth, validate(validateReturn)]` middleware followed by the handler that
    looks up the rental, rejects closed rentals, closes the rental, saves it,
    and increments the movie's stock via `Movie.update({_id}, {$inc: {numberInStock: 1}})`;
  * `middleware/validate.js` (source quoted in `notes/TestDrivenDevelopment.md`) —
    runs the route's Joi validator on `req.body` and responds 400 with the first
    Joi error message when validation fails.

Timestamps are milliseconds since the epoch, as `Int` (JS `Date.valueOf()`).
`moment().diff(dateOut, 'days')` truncates the millisecond difference divided by
86400000 toward zero, which is `Int.tdiv`.  JS numbers carried by rates and fees
are modelled as `ℚ`.
-/

/-- Milliseconds in a day; `moment` uses 864e5 for a `'days'` diff. -/
def msPerDay : Int := 86400000

/-- The customer snapshot embedded in a rental (`models/rental.js`,
`rentalSchema.customer`).  `oid` is the Mongo `_id` of the subdocument. -/
structure CustomerSnap where
  oid : String
  name : String
  isGold : Bool
  phone : String
  deriving Repr, DecidableEq

/-- The movie snapshot embedded in a rental (`models/rental.js`,
`rentalSchema.movie`): title and the daily rental rate copied at checkout. -/
structure MovieSnap where
  oid : String
  title : String
  dailyRentalRate : ℚ
  deriving Repr, DecidableEq

/-- A rental document (`models/rental.js`).  `oid` is the document's `_id`;
`dateReturned` is absent while the rental is open; `rentalFee` is set when the
rental is closed. -/
structure Rental where
  oid : String
  customer : CustomerSnap
  movie : MovieSnap
  dateOut : Int
  dateReturned : Option Int
  rentalFee : Option ℚ
  deriving Repr, DecidableEq

/-- A movie document in the `movies` collection (`models/movie.js` shape as used
by the returns route: `_id` and the `numberInStock` counter). -/
structure Movie where
  oid : String
  title : String
  numberInStock : Int
  dailyRentalRate : ℚ
  deriving Repr, DecidableEq

/-- `rentalSchema.statics.lookup` (`models/rental.js`):
`findOne({'customer._id': customerId, 'movie._id': movieId})` — the first
document in the collection matching the pair, open or closed. -/
def Rental.lookup (rentals : List Rental) (customerId movieId : String) : Option Rental :=
  rentals.find? (fun r => r.customer.oid == customerId && r.movie.oid == movieId)

/-- `rentalSchema.methods.return` (`models/rental.js`): sets `dateReturned` to
the current time and `rentalFee` to
`moment().diff(this.dateOut, 'days') * this.movie.dailyRentalRate`. -/
def Rental.close (now : Int) (r : Rental) : Rental :=
  let rentalDays : Int := Int.tdiv (now - r.dateOut) msPerDay
  { r with dateReturned := some now
           rentalFee := some ((rentalDays : ℚ) * r.movie.dailyRentalRate) }

/-- `rental.save()`: persists the document, replacing the stored document with
the same `_id`. -/
def saveRental : List Rental → Rental → List Rental
  | [], _ => []
  | x :: xs, r => (if x.oid == r.oid then r else x) :: saveRental xs r

/-- `Movie.update({ _id: movieId }, { $inc: { numberInStock: 1 } })`
(`routes/returns.js`): increments the stock counter of the first (sole, since
`_id` is unique) movie document with the given id. -/
def incStock : List Movie → String → List Movie
  | [], _ => []
  | m :: ms, movieId =>
      if m.oid == movieId then { m with numberInStock := m.numberInStock + 1 } :: ms
      else m :: incStock ms movieId

/-- The stock count recorded for a movie id, when a movie with that id exists. -/
def stockOf (movies : List Movie) (movieId : String) : Option Int :=
  (movies.find? (fun m => m.oid == movieId)).map Movie.numberInStock

/-- The persistent state the returns route touches: the `rentals` and `movies`
collections. -/
structure Store where
  rentals : List Rental
  movies : List Movie
  deriving Repr, DecidableEq

/-- An incoming `POST /api/returns` request: the `x-auth-token` header (absent
or a string) and the JSON body as key/value pairs. -/
structure Request where
  token : Option String
  body : List (String × String)
  deriving Repr, DecidableEq

/-- `Joi.objectId()` (joi-objectid): a 24-character hex string. -/
def isValidObjectId (s : String) : Bool :=
  s.length == 24 && s.data.all (fun c =>
    c.isDigit || ('a' ≤ c && c ≤ 'f') || ('A' ≤ c && c ≤ 'F'))

/-- `validateReturn` (`routes/returns.js`): `Joi.validate(req, schema)` with
`schema = { customerId: Joi.objectId().required(), movieId: Joi.objectId().required() }`.
Returns the first error message (`error.details[0].message`) or `none` on
success.  Joi checks the schema's keys in order and, by default, rejects any
key not named in the schema. -/
def validateReturn (body : List (String × String)) : Option String :=
  match body.lookup "customerId" with
  | none => some "customerId is required"
  | some cid =>
    if !isValidObjectId cid then some "customerId must be a valid id"
    else
      match body.lookup "movieId" with
      | none => some "movieId is required"
      | some mid =>
        if !isValidObjectId mid then some "movieId must be a valid id"
        else if body.all (fun kv => kv.1 == "customerId" || kv.1 == "movieId") then none
        else some "key is not allowed"

/-- The outcome of `POST /api/returns` as seen by the caller. -/
inductive ReturnResult where
  | accessDenied
  | invalidToken
  | invalidInput (msg : String)
  | notFound
  | alreadyProcessed
  | storeError
  | success (rental : Rental)
  deriving Repr, DecidableEq

/-- The HTTP status the route responds with for each outcome
(`res.status(...)` in the middleware chain and handler). -/
def ReturnResult.status : ReturnResult → Nat
  | .accessDenied => 401
  | .invalidToken => 400
  | .invalidInput _ => 400
  | .notFound => 404
  | .alreadyProcessed => 400
  | .storeError => 500
  | .success _ => 200

/-- `middleware/auth.js` (source quoted in the repository's integration-testing
notes): a missing `x-auth-token` header — or an empty one, `!token` being true
for any falsey value — is answered 401 'Access Denied. No token provided.'; a
present token that `jwt.verify` rejects is answered 400 'Invalid token.';
otherwise the middleware stores the decoded payload on the request and calls
`next()`.  `validToken` models `jwt.verify` with the configured
`jwtPrivateKey`. -/
def authResult (validToken : String → Bool) (token : Option String) :
    Option ReturnResult :=
  match token with
  | none => some .accessDenied
  | some t =>
    if t = "" then some .accessDenied
    else if validToken t then none
    else some .invalidToken

/-- The auth middleware passes — calls `next()` — iff it produces no error
response. -/
def authCheck (validToken : String → Bool) (token : Option String) : Bool :=
  (authResult validToken token).isNone

/-- The `POST /api/returns` pipeline (`routes/returns.js`):
`router.post('/', [auth, validate(validateReturn)], handler)`.
`auth` runs first, then `validate(validateReturn)` on the body, then the
handler: lookup → 404 if none → 400 if `dateReturned` set → `rental.return()`,
`rental.save()`, stock increment, respond with the rental.  `saveOk` models
whether `rental.save()` succeeds; when it throws, `express-async-errors`
surfaces a 500 and the stock increment never runs. -/
def processReturn (validToken : String → Bool) (saveOk : Bool) (now : Int)
    (req : Request) (st : Store) : ReturnResult × Store :=
  match authResult validToken req.token with
  | some e => (e, st)
  | none =>
    match validateReturn req.body with
    | some msg => (.invalidInput msg, st)
    | none =>
      let cid := (req.body.lookup "customerId").getD ""
      let mid := (req.body.lookup "movieId").getD ""
      match Rental.lookup st.rentals cid mid with
      | none => (.notFound, st)
      | some r =>
        if r.dateReturned.isSome then (.alreadyProcessed, st)
        else if !saveOk then (.storeError, st)
        else
          let r2 := Rental.close now r
          (.success r2,
           { rentals := saveRental st.rentals r2
             movies := incStock st.movies r.movie.oid })

/-! ## Concrete fixtures used by the witnesses and counterexamples -/

def wCid : String := "5c1234567890abcdef123456"
def wMid : String := "5c1234567890abcdef123457"

def wCustomer : CustomerSnap :=
  { oid := wCid, name := "Jesse", isGold := false, phone := "12345" }

def wMovieSnap : MovieSnap :=
  { oid := wMid, title := "Terminator", dailyRentalRate := 2 }

/-- An open rental for the pair, checked out at epoch time 0. -/
def wOpen : Rental :=
  { oid := "rental-open", customer := wCustomer, movie := wMovieSnap,
    dateOut := 0, dateReturned := none, rentalFee := none }

/-- A closed historical rental for the same pair. -/
def wClosed : Rental :=
  { oid := "rental-closed", customer := wCustomer, movie := wMovieSnap,
    dateOut := 0, dateReturned := some 100, rentalFee := some 0 }

def wMovie : Movie :=
  { oid := wMid, title := "Terminator", numberInStock := 5, dailyRentalRate := 3 }

def wStore : Store := { rentals := [wOpen], movies := [wMovie] }

def wBody : List (String × String) := [("customerId", wCid), ("movieId", wMid)]

def wReq : Request := { token := some "tok", body := wBody }

/-- An authorization collaborator accepting every token. -/
def wVT : String → Bool := fun _ => true

/-- Seven days after the fixtures' checkout time. -/
def wNow : Int := 604800000


/-! ## Helper lemmas -/

lemma tdiv_eq_zero_of_lt {a b : Int} (h0 : 0 ≤ a) (h : a < b) : Int.tdiv a b = 0 := by
  rw [Int.tdiv_eq_ediv h0 (le_of_lt (lt_of_le_of_lt h0 h))]
  exact Int.ediv_eq_zero_of_lt h0 h

/-- When the auth middleware passes it produces no error response. -/
lemma authResult_eq_none {vt : String → Bool} {tok : Option String}
    (h : authCheck vt tok = true) : authResult vt tok = none :=
  Option.isNone_iff_eq_none.mp h

/-- A rental found by `Rental.lookup` matches the searched pair. -/
lemma lookup_matches {rentals : List Rental} {cid mid : String} {r : Rental}
    (h : Rental.lookup rentals cid mid = some r) :
    r.customer.oid = cid ∧ r.movie.oid = mid := by
  have := List.find?_some h
  simp only [Bool.and_eq_true, beq_iff_eq] at this
  exact this

/-- A rental found by `Rental.lookup` is a member of the collection. -/
lemma lookup_mem {rentals : List Rental} {cid mid : String} {r : Rental}
    (h : Rental.lookup rentals cid mid = some r) : r ∈ rentals :=
  List.mem_of_find?_eq_some h

/-- After saving a document that matches the pair and carries the `_id` of the
document `Rental.lookup` previously found, the lookup finds exactly the saved
document. -/
lemma lookup_saveRental {rentals : List Rental} {cid mid : String} {r r2 : Rental}
    (h : Rental.lookup rentals cid mid = some r)
    (hoid : r2.oid = r.oid) (hc : r2.customer.oid = cid) (hm : r2.movie.oid = mid) :
    Rental.lookup (saveRental rentals r2) cid mid = some r2 := by
  induction rentals with
  | nil => simp [Rental.lookup] at h
  | cons x xs ih =>
    simp only [Rental.lookup, saveRental, List.find?_cons] at h ⊢
    by_cases ho : (x.oid == r2.oid) = true
    · rw [if_pos ho]
      have hp : (r2.customer.oid == cid && r2.movie.oid == mid) = true := by simp [hc, hm]
      simp [hp]
    · rw [if_neg ho]
      by_cases hx : (x.customer.oid == cid && x.movie.oid == mid) = true
      · have hxr : x = r := by simpa [hx] using h
        exact absurd (by simp [hxr, hoid]) ho
      · have h' : Rental.lookup xs cid mid = some r := by simpa [hx] using h
        have h2 := ih h'
        simp only [Rental.lookup, saveRental] at h2
        simp [hx, h2]

/-- The `$inc` update raises the recorded stock of the target movie by exactly
one (and yields no record when the id is absent, as the original no-op update). -/
lemma stockOf_incStock (movies : List Movie) (movieId : String) :
    stockOf (incStock movies movieId) movieId
      = (stockOf movies movieId).map (fun n => n + 1) := by
  induction movies with
  | nil => simp [stockOf, incStock]
  | cons m ms ih =>
    by_cases hm : (m.oid == movieId) = true
    · simp [stockOf, incStock, List.find?_cons, hm]
    · simp only [stockOf, incStock, List.find?_cons] at ih ⊢
      rw [if_neg hm]
      simp only [List.find?_cons]
      simp [hm, ih]

/-- Every run of the pipeline either leaves the store untouched or is the
success path: an open rental was found, `saveOk` held, and the new store is the
saved rental plus the incremented stock. -/
lemma processReturn_shape (vt : String → Bool) (so : Bool) (now : Int)
    (req : Request) (st : Store) :
    (processReturn vt so now req st).2 = st
    ∨ ∃ r, Rental.lookup st.rentals ((req.body.lookup "customerId").getD "")
             ((req.body.lookup "movieId").getD "") = some r
        ∧ r.dateReturned = none
        ∧ so = true
        ∧ processReturn vt so now req st
            = (.success (Rental.close now r),
               { rentals := saveRental st.rentals (Rental.close now r)
                 movies := incStock st.movies r.movie.oid }) := by
  unfold processReturn
  cases ha : authResult vt req.token with
  | some e => left; rfl
  | none =>
    cases hv : validateReturn req.body with
    | some msg => left; rfl
    | none =>
      cases hlk : Rental.lookup st.rentals ((req.body.lookup "customerId").getD "")
          ((req.body.lookup "movieId").getD "") with
      | none => simp only [hlk]; left; trivial
      | some r =>
        simp only [hlk]
        by_cases hr : r.dateReturned.isSome = true
        · rw [if_pos hr]; left; rfl
        · rw [if_neg hr]
          by_cases hs : (!so) = true
          · rw [if_pos hs]; left; rfl
          · rw [if_neg hs]
            right
            exact ⟨r, rfl, Option.not_isSome_iff_eq_none.mp hr,
              by revert hs; cases so <;> simp, rfl⟩

/-- The success path in one equation: with authentication, validation and an
open looked-up rental, the pipeline closes the rental, saves it and increments
the stock. -/
lemma processReturn_success_eq
    {vt : String → Bool} {now : Int} {req : Request} {st : Store} {r : Rental}
    (hauth : authCheck vt req.token = true)
    (hval : validateReturn req.body = none)
    (hlk : Rental.lookup st.rentals ((req.body.lookup "customerId").getD "")
             ((req.body.lookup "movieId").getD "") = some r)
    (hopen : r.dateReturned = none) :
    processReturn vt true now req st
      = (.success (Rental.close now r),
         { rentals := saveRental st.rentals (Rental.close now r)
           movies := incStock st.movies r.movie.oid }) := by
  simp [processReturn, authResult_eq_none hauth, hval, hlk, hopen]

/-- When the Joi validator accepts a body, every key of the body is
`customerId` or `movieId` (the schema admits no other key). -/
lemma validateReturn_none_all {body : List (String × String)}
    (h : validateReturn body = none) :
    body.all (fun kv => kv.1 == "customerId" || kv.1 == "movieId") = true := by
  unfold validateReturn at h
  split at h
  · exact absurd h (by simp)
  · split at h
    · exact absurd h (by simp)
    · split at h
      · exact absurd h (by simp)
      · split at h
        · exact absurd h (by simp)
        · split at h
          · assumption
          · exact absurd h (by simp)

/-! ## Claims -/

/-- C1: for every authenticated, valid request whose (customerId, movieId) pair
resolves to an open rental, a successful processReturn closes the rental with
`dateReturned` equal to the current time and `rentalFee` equal to the whole
days elapsed between the current time and `dateOut` (truncated, partial days
under 24h counting as 0) multiplied by the rental's stored `dailyRentalRate`;
a same-day return (less than one day elapsed) yields `rentalFee = 0`. -/
theorem processReturn_success_fee
    (vt : String → Bool) (now : Int) (req : Request) (st : Store) (r : Rental)
    (hauth : authCheck vt req.token = true)
    (hval : validateReturn req.body = none)
    (hlk : Rental.lookup st.rentals ((req.body.lookup "customerId").getD "")
             ((req.body.lookup "movieId").getD "") = some r)
    (hopen : r.dateReturned = none) :
    processReturn vt true now req st
      = (.success (Rental.close now r),
         { rentals := saveRental st.rentals (Rental.close now r)
           movies := incStock st.movies r.movie.oid })
    ∧ (Rental.close now r).dateReturned = some now
    ∧ (Rental.close now r).rentalFee
        = some ((Int.tdiv (now - r.dateOut) msPerDay : ℚ) * r.movie.dailyRentalRate)
    ∧ (r.dateOut ≤ now → now - r.dateOut < msPerDay →
        (Rental.close now r).rentalFee = some 0) := by
  refine ⟨?_, rfl, rfl, fun h1 h2 => ?_⟩
  · simp [processReturn, authResult_eq_none hauth, hval, hlk, hopen]
  · have h0 : (0 : Int) ≤ now - r.dateOut := by omega
    simp [Rental.close, tdiv_eq_zero_of_lt h0 h2]

/-- Witness for C1 at the seven-days-at-rate-2 fixture. -/
theorem processReturn_success_fee_witness :
    processReturn wVT true wNow wReq wStore
      = (.success (Rental.close wNow wOpen),
         { rentals := saveRental wStore.rentals (Rental.close wNow wOpen)
           movies := incStock wStore.movies wOpen.movie.oid })
    ∧ (Rental.close wNow wOpen).dateReturned = some wNow
    ∧ (Rental.close wNow wOpen).rentalFee
        = some ((Int.tdiv (wNow - wOpen.dateOut) msPerDay : ℚ) * wOpen.movie.dailyRentalRate)
    ∧ (wOpen.dateOut ≤ wNow → wNow - wOpen.dateOut < msPerDay →
        (Rental.close wNow wOpen).rentalFee = some 0) :=
  processReturn_success_fee wVT wNow wReq wStore wOpen rfl rfl rfl rfl

/-- C6 counterexample: the original claim — HTTP 401 for every request lacking
valid credentials — is false for a present-but-invalid token: `auth.js` ends
in its catch block and answers 400 'Invalid token.', not 401.  Concretely,
with a verifier that rejects the token "a", the request fails authentication
yet the responded status is 400. -/
theorem invalid_token_responds_400 :
    authCheck (fun _ => false) (some "a") = false
    ∧ processReturn (fun _ => false) true wNow { token := some "a", body := wBody } wStore
        = (.invalidToken, wStore)
    ∧ ReturnResult.invalidToken.status = 400
    ∧ ¬ (processReturn (fun _ => false) true wNow
          { token := some "a", body := wBody } wStore).1.status = 401 :=
  ⟨rfl, rfl, rfl, by decide⟩

/-- C6 amended: authentication is checked before input validation and touches
no store: with a missing (or empty, hence falsey) x-auth-token header the
request fails 401 'Access Denied. No token provided.', and with a present
token the verifier rejects it fails 400 'Invalid token.' — in both cases for
every body whatsoever, with the outcome identical for every store and the
store returned unchanged. -/
theorem processReturn_auth_before_validation
    (vt : String → Bool) (so : Bool) (now : Int) (req : Request) :
    (req.token = none →
      ∀ st : Store, processReturn vt so now req st = (.accessDenied, st))
    ∧ (req.token = some "" →
      ∀ st : Store, processReturn vt so now req st = (.accessDenied, st))
    ∧ (∀ t, req.token = some t → t ≠ "" → vt t = false →
      ∀ st : Store, processReturn vt so now req st = (.invalidToken, st))
    ∧ ReturnResult.accessDenied.status = 401
    ∧ ReturnResult.invalidToken.status = 400 := by
  refine ⟨fun h st => ?_, fun h st => ?_, fun t ht hne hvt st => ?_, rfl, rfl⟩
  · simp [processReturn, authResult, h]
  · simp [processReturn, authResult, h]
  · simp [processReturn, authResult, ht, hne, hvt]

/-- Witness for the amended C6: a token-less request and a rejected-token
request, both with a perfectly valid body. -/
theorem processReturn_auth_before_validation_witness :
    processReturn wVT true wNow { token := none, body := wBody } wStore
      = (.accessDenied, wStore)
    ∧ processReturn (fun _ => false) true wNow { token := some "a", body := wBody } wStore
      = (.invalidToken, wStore)
    ∧ ReturnResult.accessDenied.status = 401
    ∧ ReturnResult.invalidToken.status = 400 :=
  ⟨(processReturn_auth_before_validation wVT true wNow
      { token := none, body := wBody }).1 rfl wStore,
   (processReturn_auth_before_validation (fun _ => false) true wNow
      { token := some "a", body := wBody }).2.2.1 "a" rfl (by decide) rfl wStore,
   (processReturn_auth_before_validation wVT true wNow
      { token := none, body := wBody }).2.2.2.1,
   (processReturn_auth_before_validation wVT true wNow
      { token := none, body := wBody }).2.2.2.2⟩

/-- C8: an authenticated, validly-formed request whose pair matches no rental
fails with NotFound, mapped to HTTP 404, and the store is unchanged. -/
theorem processReturn_notFound_404
    (vt : String → Bool) (so : Bool) (now : Int) (req : Request) (st : Store)
    (hauth : authCheck vt req.token = true)
    (hval : validateReturn req.body = none)
    (hlk : Rental.lookup st.rentals ((req.body.lookup "customerId").getD "")
             ((req.body.lookup "movieId").getD "") = none) :
    processReturn vt so now req st = (.notFound, st)
    ∧ ReturnResult.notFound.status = 404 := by
  refine ⟨?_, rfl⟩
  simp [processReturn, authResult_eq_none hauth, hval, hlk]

/-- Witness for C8: valid request against a store with no rentals. -/
theorem processReturn_notFound_404_witness :
    processReturn wVT true wNow wReq { rentals := [], movies := [wMovie] }
      = (.notFound, { rentals := [], movies := [wMovie] })
    ∧ ReturnResult.notFound.status = 404 :=
  processReturn_notFound_404 wVT true wNow wReq { rentals := [], movies := [wMovie] }
    rfl rfl rfl

/-- C7: for an authenticated request, a missing or syntactically invalid
customerId is rejected with the customerId validation error (HTTP 400), and a
missing or syntactically invalid movieId — the customerId check, which Joi runs
first, having passed — with the movieId validation error (HTTP 400); in every
case the outcome is the same for every store and the store is unchanged, so no
lookup happens. -/
theorem processReturn_invalidInput_ids
    (vt : String → Bool) (so : Bool) (now : Int) (req : Request)
    (hauth : authCheck vt req.token = true) :
    (req.body.lookup "customerId" = none →
      ∀ st : Store, processReturn vt so now req st
        = (.invalidInput "customerId is required", st))
    ∧ (∀ c, req.body.lookup "customerId" = some c → isValidObjectId c = false →
        ∀ st : Store, processReturn vt so now req st
          = (.invalidInput "customerId must be a valid id", st))
    ∧ (∀ c, req.body.lookup "customerId" = some c → isValidObjectId c = true →
        req.body.lookup "movieId" = none →
        ∀ st : Store, processReturn vt so now req st
          = (.invalidInput "movieId is required", st))
    ∧ (∀ c m, req.body.lookup "customerId" = some c → isValidObjectId c = true →
        req.body.lookup "movieId" = some m → isValidObjectId m = false →
        ∀ st : Store, processReturn vt so now req st
          = (.invalidInput "movieId must be a valid id", st))
    ∧ (∀ msg, (ReturnResult.invalidInput msg).status = 400) := by
  have s1 : ∀ msg, validateReturn req.body = some msg →
      ∀ st : Store, processReturn vt so now req st = (.invalidInput msg, st) := by
    intro msg hmsg st
    simp [processReturn, authResult_eq_none hauth, hmsg]
  refine ⟨fun h st => s1 _ ?_ st,
          fun c hc hcv st => s1 _ ?_ st,
          fun c hc hcv hm st => s1 _ ?_ st,
          fun c m hc hcv hm hmv st => s1 _ ?_ st,
          fun msg => rfl⟩
  · simp [validateReturn, h]
  · simp [validateReturn, hc, hcv]
  · simp [validateReturn, hc, hcv, hm]
  · simp [validateReturn, hc, hcv, hm, hmv]

/-- Witness for C7: a body lacking customerId, and a body whose movieId is not
a 24-character hex id. -/
theorem processReturn_invalidInput_ids_witness :
    processReturn wVT true wNow { token := some "tok", body := [("movieId", wMid)] } wStore
      = (.invalidInput "customerId is required", wStore)
    ∧ processReturn wVT true wNow
        { token := some "tok", body := [("customerId", wCid), ("movieId", "123")] } wStore
      = (.invalidInput "movieId must be a valid id", wStore)
    ∧ (ReturnResult.invalidInput "customerId is required").status = 400 :=
  ⟨(processReturn_invalidInput_ids wVT true wNow
      { token := some "tok", body := [("movieId", wMid)] } rfl).1 rfl wStore,
   (processReturn_invalidInput_ids wVT true wNow
      { token := some "tok", body := [("customerId", wCid), ("movieId", "123")] }
      rfl).2.2.2.1 wCid "123" rfl rfl rfl rfl wStore,
   (processReturn_invalidInput_ids wVT true wNow
      { token := some "tok", body := [("movieId", wMid)] } rfl).2.2.2.2 _⟩

/-- C10: an authenticated request whose body holds any key other than
customerId and movieId is rejected by validation with HTTP 400 — the outcome is
the same for every store, the store is unchanged, hence no lookup happens —
even when customerId and movieId themselves are present and valid. -/
theorem processReturn_rejects_extra_keys
    (vt : String → Bool) (so : Bool) (now : Int) (req : Request) (k v : String)
    (hauth : authCheck vt req.token = true)
    (hk : (k, v) ∈ req.body) (hk1 : k ≠ "customerId") (hk2 : k ≠ "movieId") :
    ∃ msg, ∀ st : Store,
      processReturn vt so now req st = (.invalidInput msg, st)
      ∧ (ReturnResult.invalidInput msg).status = 400 := by
  cases hv : validateReturn req.body with
  | none =>
    exfalso
    have hall := List.all_eq_true.mp (validateReturn_none_all hv) (k, v) hk
    simp only [Bool.or_eq_true, beq_iff_eq] at hall
    rcases hall with h | h
    · exact hk1 h
    · exact hk2 h
  | some msg =>
    exact ⟨msg, fun st => ⟨by simp [processReturn, authResult_eq_none hauth, hv], rfl⟩⟩

/-- Witness for C10: both ids valid plus an extra key. -/
theorem processReturn_rejects_extra_keys_witness :
    ∃ msg, ∀ st : Store,
      processReturn wVT true wNow
          { token := some "tok"
            body := [("customerId", wCid), ("movieId", wMid), ("extra", "x")] } st
        = (.invalidInput msg, st)
      ∧ (ReturnResult.invalidInput msg).status = 400 :=
  processReturn_rejects_extra_keys wVT true wNow
    { token := some "tok"
      body := [("customerId", wCid), ("movieId", wMid), ("extra", "x")] }
    "extra" "x" rfl (by simp) (by decide) (by decide)

/-- C2: after a successful processReturn for a pair, an identical second call
fails with AlreadyProcessed (HTTP 400) and leaves the entire store — in
particular the stock counts produced by the first call — unchanged. -/
theorem processReturn_second_call_rejected
    (vt : String → Bool) (now now2 : Int) (req : Request) (st : Store) (r : Rental)
    (hauth : authCheck vt req.token = true)
    (hval : validateReturn req.body = none)
    (hlk : Rental.lookup st.rentals ((req.body.lookup "customerId").getD "")
             ((req.body.lookup "movieId").getD "") = some r)
    (hopen : r.dateReturned = none) :
    processReturn vt true now2 req (processReturn vt true now req st).2
      = (.alreadyProcessed, (processReturn vt true now req st).2)
    ∧ ReturnResult.alreadyProcessed.status = 400 := by
  have hmm := lookup_matches hlk
  have hlk2 : Rental.lookup (saveRental st.rentals (Rental.close now r))
      ((req.body.lookup "customerId").getD "") ((req.body.lookup "movieId").getD "")
      = some (Rental.close now r) :=
    lookup_saveRental hlk rfl hmm.1 hmm.2
  rw [processReturn_success_eq hauth hval hlk hopen]
  refine ⟨?_, rfl⟩
  have hds : (Rental.close now r).dateReturned = some now := rfl
  simp [processReturn, authResult_eq_none hauth, hval, hlk2, hds]

/-- Witness for C2 at the fixtures. -/
theorem processReturn_second_call_rejected_witness :
    processReturn wVT true wNow wReq (processReturn wVT true wNow wReq wStore).2
      = (.alreadyProcessed, (processReturn wVT true wNow wReq wStore).2)
    ∧ ReturnResult.alreadyProcessed.status = 400 :=
  processReturn_second_call_rejected wVT wNow wNow wReq wStore wOpen rfl rfl rfl rfl

/-- C5: on a successful return the stock recorded for the returned movie rises
by exactly one, and the increment only happens after the rental save succeeds:
when the save fails the request errors out with the store — every stock count
included — unchanged. -/
theorem processReturn_stock_incremented_after_save
    (vt : String → Bool) (now : Int) (req : Request) (st : Store) (r : Rental)
    (hauth : authCheck vt req.token = true)
    (hval : validateReturn req.body = none)
    (hlk : Rental.lookup st.rentals ((req.body.lookup "customerId").getD "")
             ((req.body.lookup "movieId").getD "") = some r)
    (hopen : r.dateReturned = none) :
    stockOf (processReturn vt true now req st).2.movies r.movie.oid
      = (stockOf st.movies r.movie.oid).map (fun n => n + 1)
    ∧ processReturn vt false now req st = (.storeError, st) := by
  constructor
  · rw [processReturn_success_eq hauth hval hlk hopen]
    exact stockOf_incStock st.movies r.movie.oid
  · simp [processReturn, authResult_eq_none hauth, hval, hlk, hopen]

/-- Witness for C5 at the fixtures (stock 5 becomes 6; with a failing save the
store is untouched). -/
theorem processReturn_stock_incremented_after_save_witness :
    stockOf (processReturn wVT true wNow wReq wStore).2.movies wOpen.movie.oid
      = (stockOf wStore.movies wOpen.movie.oid).map (fun n => n + 1)
    ∧ processReturn wVT false wNow wReq wStore = (.storeError, wStore) :=
  processReturn_stock_incremented_after_save wVT wNow wReq wStore wOpen rfl rfl rfl rfl

/-- Saving a document leaves every document with a different `_id` in place. -/
lemma mem_saveRental_of_ne {rs : List Rental} {x r2 : Rental}
    (hmem : x ∈ rs) (hne : x.oid ≠ r2.oid) : x ∈ saveRental rs r2 := by
  induction rs with
  | nil => cases hmem
  | cons y ys ih =>
    rcases List.mem_cons.mp hmem with h | h
    · subst h
      show x ∈ (if (x.oid == r2.oid) = true then r2 else x) :: saveRental ys r2
      rw [if_neg (by simp [hne])]
      exact List.mem_cons_self x _
    · exact List.mem_cons.mpr (Or.inr (ih h))

/-- C4: whenever processReturn fails (any outcome other than success) the store
comes back unchanged — every open rental stays open and untouched, every stock
count keeps its value — and, document ids being unique, a closed rental is
never modified by any invocation whatsoever: it is still present, bitwise
identical, afterwards. -/
theorem processReturn_failure_preserves_store
    (vt : String → Bool) (so : Bool) (now : Int) (req : Request) (st : Store) :
    ((∀ r, (processReturn vt so now req st).1 ≠ .success r) →
      (processReturn vt so now req st).2 = st)
    ∧ (∀ rc ∈ st.rentals, rc.dateReturned.isSome = true →
        (st.rentals.map Rental.oid).Nodup →
        rc ∈ (processReturn vt so now req st).2.rentals) := by
  rcases processReturn_shape vt so now req st with h | ⟨r, hlk, hopen, hso, heq⟩
  · constructor
    · intro _; exact h
    · intro rc hmem _ _
      rw [h]; exact hmem
  · constructor
    · intro hns
      exact absurd (by rw [heq]) (hns (Rental.close now r))
    · intro rc hmem hclosed hnodup
      rw [heq]
      have hrmem : r ∈ st.rentals := lookup_mem hlk
      have hne : rc.oid ≠ (Rental.close now r).oid := by
        intro hoid
        have hrc : rc = r :=
          List.inj_on_of_nodup_map hnodup hmem hrmem hoid
        rw [hrc, hopen] at hclosed
        exact Bool.false_ne_true hclosed
      exact mem_saveRental_of_ne hmem hne

/-- Witness for C4: an unauthenticated (hence failing) call leaves a store with
a closed and an open rental untouched, and the closed rental survives intact. -/
theorem processReturn_failure_preserves_store_witness :
    (processReturn wVT true wNow { token := none, body := wBody }
        { rentals := [wClosed, wOpen], movies := [wMovie] }).2
      = { rentals := [wClosed, wOpen], movies := [wMovie] }
    ∧ wClosed ∈ (processReturn wVT true wNow { token := none, body := wBody }
        { rentals := [wClosed, wOpen], movies := [wMovie] }).2.rentals :=
  ⟨(processReturn_failure_preserves_store wVT true wNow
      { token := none, body := wBody }
      { rentals := [wClosed, wOpen], movies := [wMovie] }).1
      (fun _ h => ReturnResult.noConfusion h),
   (processReturn_failure_preserves_store wVT true wNow
      { token := none, body := wBody }
      { rentals := [wClosed, wOpen], movies := [wMovie] }).2
      wClosed (List.mem_cons_self wClosed [wOpen]) rfl (by decide)⟩

/-- C9: the caller-visible outcome of processReturn — in particular the
computed rentalFee — depends only on the rental collection and the rate
snapshotted inside the rental at checkout: two runs over stores with the same
rentals but arbitrarily different movie records (for instance a changed current
dailyRentalRate on the Movie document) produce the same result. -/
theorem processReturn_fee_ignores_movie_record
    (vt : String → Bool) (so : Bool) (now : Int) (req : Request)
    (rentals : List Rental) (movies1 movies2 : List Movie) :
    (processReturn vt so now req { rentals := rentals, movies := movies1 }).1
      = (processReturn vt so now req { rentals := rentals, movies := movies2 }).1 := by
  unfold processReturn
  cases ha : authResult vt req.token with
  | some e => rfl
  | none =>
    cases hv : validateReturn req.body with
    | some msg => rfl
    | none =>
      cases hlk : Rental.lookup rentals ((req.body.lookup "customerId").getD "")
          ((req.body.lookup "movieId").getD "") with
      | none => simp only [hlk]
      | some r =>
        simp only [hlk]
        by_cases hr : r.dateReturned.isSome = true
        · rw [if_pos hr, if_pos hr]
        · rw [if_neg hr, if_neg hr]
          by_cases hs : (!so) = true
          · rw [if_pos hs, if_pos hs]
          · rw [if_neg hs, if_neg hs]

/-- C3 counterexample: `Rental.lookup` does not filter on `dateReturned`.  In a
store holding, for one pair, a closed historical rental stored before the
single open one, the lookup resolves to the closed rental — not the open one —
and processReturn answers AlreadyProcessed instead of closing the open
rental. -/
theorem lookup_finds_closed_before_open :
    Rental.lookup [wClosed, wOpen] wCid wMid = some wClosed
    ∧ wClosed.dateReturned.isSome = true
    ∧ wOpen.dateReturned = none
    ∧ wClosed ≠ wOpen
    ∧ (processReturn wVT true wNow wReq
         { rentals := [wClosed, wOpen], movies := [wMovie] }).1
        = .alreadyProcessed := by
  refine ⟨rfl, rfl, rfl, ?_, rfl⟩
  intro h
  exact absurd (congrArg Rental.oid h) (by decide)

/-- C3 amended: the lookup used by processReturn returns the first rental in
store order matching the (customerId, movieId) pair, whether open or closed;
it therefore resolves to the single open rental exactly when no closed rental
for the pair precedes it, and in that case processReturn closes that open
rental. -/
theorem lookup_first_match_for_pair
    (rs1 rs2 : List Rental) (r : Rental) (vt : String → Bool) (now : Int)
    (req : Request) (movies : List Movie)
    (hpre : ∀ r' ∈ rs1, ¬(r'.customer.oid = (req.body.lookup "customerId").getD ""
              ∧ r'.movie.oid = (req.body.lookup "movieId").getD ""))
    (hc : r.customer.oid = (req.body.lookup "customerId").getD "")
    (hm : r.movie.oid = (req.body.lookup "movieId").getD "")
    (hauth : authCheck vt req.token = true)
    (hval : validateReturn req.body = none)
    (hopen : r.dateReturned = none) :
    Rental.lookup (rs1 ++ r :: rs2) ((req.body.lookup "customerId").getD "")
        ((req.body.lookup "movieId").getD "") = some r
    ∧ (processReturn vt true now req { rentals := rs1 ++ r :: rs2, movies := movies }).1
        = .success (Rental.close now r) := by
  have hlk : Rental.lookup (rs1 ++ r :: rs2) ((req.body.lookup "customerId").getD "")
      ((req.body.lookup "movieId").getD "") = some r := by
    induction rs1 with
    | nil => simp [Rental.lookup, List.find?_cons, hc, hm]
    | cons x xs ih =>
      have hx := hpre x (List.mem_cons_self x xs)
      have hb : (x.customer.oid == (req.body.lookup "customerId").getD ""
          && x.movie.oid == (req.body.lookup "movieId").getD "") = false := by
        rw [Bool.and_eq_false_iff]
        by_cases h1 : x.customer.oid = (req.body.lookup "customerId").getD ""
        · right
          exact beq_eq_false_iff_ne.mpr (fun h2 => hx ⟨h1, h2⟩)
        · left
          exact beq_eq_false_iff_ne.mpr h1
      have ih2 := ih (fun r' hr' => hpre r' (List.mem_cons_of_mem x hr'))
      simp only [List.cons_append, Rental.lookup, List.find?_cons, hb] at ih2 ⊢
      exact ih2
  exact ⟨hlk, by rw [processReturn_success_eq hauth hval hlk hopen]⟩

/-- Witness for the amended C3: with the open rental stored before the closed
historical one, the lookup resolves to the open rental and processReturn
closes it. -/
theorem lookup_first_match_for_pair_witness :
    Rental.lookup ([] ++ wOpen :: [wClosed]) ((wReq.body.lookup "customerId").getD "")
        ((wReq.body.lookup "movieId").getD "") = some wOpen
    ∧ (processReturn wVT true wNow wReq
         { rentals := [] ++ wOpen :: [wClosed], movies := [wMovie] }).1
        = .success (Rental.close wNow wOpen) :=
  lookup_first_match_for_pair [] [wClosed] wOpen wVT wNow wReq [wMovie]
    (fun r' h => absurd h (List.not_mem_nil r')) rfl rfl rfl rfl rfl
